import Mathlib

/-!
Verification development for the StartUP Companion guided chat wizard
(`src/components/ChatInterface.tsx`, `src/lib/session.ts`,
`supabase/functions/_shared/pdfGenerator.ts` plus the hr-guide-guru edge
function).  The conversational state machine, the document-generation
fan-out and the rating/feedback resolver are shallowly embedded as pure
Lean functions; asynchronous effects (database writes, messages emitted,
rating submissions) are recorded in an explicit effects record, and
`setTimeout`-delayed actions are modelled as happening within the same
step, since no further user input intervenes in the modelled scenarios.
-/

/-- The conversation stages of `ChatInterface.tsx` (`type FlowStage`). -/
inductive FlowStage
  | initial
  | questioning
  | generating
  | documents
  | rating
  deriving DecidableEq, Repr

/-- JavaScript values that can appear in the business-profile object:
`undefined`, `null`, strings, and the wrapped partners list
`[{ info: answer }, ...]` written by `handleQuestionResponse` (each list
element models one `{ info: s }` record by its `info` string). -/
inductive JVal
  | jundef
  | jnull
  | jstr (s : String)
  | jpartners (infos : List String)
  deriving DecidableEq, Repr

/-- A JS object with string keys, as an insertion-ordered association list.
`ChatInterface.tsx` treats the business profile as a plain object. -/
abbrev Profile := List (String × JVal)

/-- JS property assignment `obj[k] = v`: overwrite in place when the key is
present, append otherwise (JS objects keep string-key insertion order). -/
def objSet (p : Profile) (k : String) (v : JVal) : Profile :=
  if p.any (fun kv => kv.1 = k) then
    p.map (fun kv => if kv.1 = k then (k, v) else kv)
  else
    p ++ [(k, v)]

/-- JS property read `obj[k]`, yielding `undefined` for a missing key. -/
def objGet (p : Profile) (k : String) : JVal :=
  match p.find? (fun kv => kv.1 = k) with
  | some kv => kv.2
  | none => JVal.jundef

/-- The longest prefix of decimal digits of a character list. -/
def digitsPrefix : List Char → List Char
  | [] => []
  | c :: cs => if c.isDigit then c :: digitsPrefix cs else []

/-- Numeric value of a list of decimal digits. -/
def digitsToNat (ds : List Char) : Nat :=
  ds.foldl (fun n c => 10 * n + (c.toNat - Char.toNat '0')) 0

/-- `s.trim()` on the character list of a string: drop whitespace from
both ends. -/
def trimChars (cs : List Char) : List Char :=
  ((cs.dropWhile Char.isWhitespace).reverse.dropWhile Char.isWhitespace).reverse

/-- `parseInt(s)` as used in `handleRatingResponse` (radix-10 inputs):
after trimming, an optional sign followed by the maximal decimal-digit
prefix; `none` models `NaN` when no digit follows.  The hexadecimal `0x`
prefix of JS `parseInt` is not modelled; no claim involves such inputs. -/
def parseIntJS (s : String) : Option Int :=
  match trimChars s.data with
  | '-' :: rest =>
      let ds := digitsPrefix rest
      if ds = [] then none else some (-(digitsToNat ds : Int))
  | '+' :: rest =>
      let ds := digitsPrefix rest
      if ds = [] then none else some ((digitsToNat ds : Int))
  | cs =>
      let ds := digitsPrefix cs
      if ds = [] then none else some ((digitsToNat ds : Int))

/-- The test `rating >= 1 && rating <= 5` of `handleRatingResponse`
(false when `parseInt` returned `NaN`). -/
def ratingInRange (v : Option Int) : Bool :=
  match v with
  | some r => decide (1 ≤ r) && decide (r ≤ 5)
  | none => false

/-- A mentor record as returned by `getMentorForService`
(spec §4.3: `{name, email, optional phone, specialization list}`). -/
structure MentorRec where
  name : String
  email : String
  phone : Option String
  specialization : List String
  deriving DecidableEq, Repr

/-- A presented mentor card (`mentorCards` entries in `handleRatingResponse`). -/
structure MentorCard where
  name : String
  email : String
  phone : String
  expertise : String
  service : String
  deriving DecidableEq, Repr

/-- `type.charAt(0).toUpperCase() + type.slice(1)` on an ASCII string. -/
def capitalizeJS (s : String) : String :=
  match s.data with
  | [] => ""
  | c :: rest => String.mk (c.toUpper :: rest)

/-- The four service/document types, in the order used by both
`generateAllDocuments` and the mentor fan-out. -/
def serviceTypes : List String := ["registration", "branding", "compliance", "hr"]

/-- The mentor-card construction of `handleRatingResponse`
(lines 490–498): `mentors.filter(m => m !== null).map((m, index) => ...)`,
where `index` ranges over the FILTERED array and is used to select
`serviceTypes[index]`; `mentor.phone || ''` and
`mentor.specialization.join(', ')` are reproduced. -/
def mkMentorCards (mentors : List (Option MentorRec)) : List MentorCard :=
  ((mentors.filterMap id).enum).map (fun im =>
    { name := im.2.name
      email := im.2.email
      phone := im.2.phone.getD ""
      expertise := String.intercalate ", " im.2.specialization
      service := capitalizeJS (serviceTypes.getD im.1 "") })

/-- Tags for the AI messages `ChatInterface.tsx` emits; each constructor
stands for one `Message` construction site in the source (contents are
fixed template strings not needed by any claim). -/
inductive MsgTag
  | questionPrompt (idx : Nat)
  | processing
  | ratingThanks (r : Int)
  | feedbackRequest
  | closing
  | feedbackThanks
  | mentorCardsMsg (cards : List MentorCard)
  | ratingError
  deriving DecidableEq, Repr

/-- The mutable conversation state held by the `ChatInterface` component:
`flowStage`, `currentQuestionIndex`, `businessProfile`, `awaitingRating`,
`ratingFeedback` and `currentSessionId`. -/
structure ChatState where
  flowStage : FlowStage
  currentQuestionIndex : Nat
  businessProfile : Profile
  awaitingRating : Bool
  ratingFeedback : String
  sessionId : String
  deriving DecidableEq, Repr

/-- Observable effects of one input-handling step: AI messages emitted,
`submitRating` invocations, input consumed as free-text feedback, mentor
cards built, `updateSessionStatus(.., 'completed')` invocations, and
`updateBusinessProfile` invocations. -/
structure Effects where
  msgs : List MsgTag
  submittedRating : Option Int
  feedbackConsumed : Option String
  mentorCards : List MentorCard
  sessionCompleted : Bool
  profileSaved : Option Profile
  deriving DecidableEq, Repr

/-- A step with no effects. -/
def emptyEffects : Effects :=
  { msgs := [], submittedRating := none, feedbackConsumed := none,
    mentorCards := [], sessionCompleted := false, profileSaved := none }

/-- `handleRatingResponse` (ChatInterface.tsx lines 424–526).  The three
branches in source order: (1) `rating >= 1 && rating <= 5` — submit the
rating, clear `awaitingRating`, thank, then either request feedback and
set `ratingFeedback = 'awaiting'` (rating ≤ 3) or emit the closing
message and mark the session completed when a session id is set
(rating ≥ 4); (2) `ratingFeedback === 'awaiting'` — consume the input as
feedback, clear the sub-state, thank, build mentor cards from the four
lookups and, only when at least one card exists, emit them and mark the
session completed when a session id is set; (3) otherwise — emit the
validation-error message and change nothing.  `setTimeout` bodies are
modelled as immediate; the four mentor lookups are a parameter. -/
def handleRatingResponse (st : ChatState) (mentors : List (Option MentorRec))
    (userInput : String) : ChatState × Effects :=
  let rating := parseIntJS userInput
  if ratingInRange rating then
    let r := rating.getD 0
    let st' := { st with
      awaitingRating := false
      ratingFeedback := if r ≤ 3 then "awaiting" else st.ratingFeedback }
    let eff := { emptyEffects with
      submittedRating := some r
      msgs := if r ≤ 3 then [MsgTag.ratingThanks r, MsgTag.feedbackRequest]
              else [MsgTag.ratingThanks r, MsgTag.closing]
      sessionCompleted := decide (4 ≤ r) && decide (st.sessionId ≠ "") }
    (st', eff)
  else if st.ratingFeedback = "awaiting" then
    let cards := mkMentorCards mentors
    let st' := { st with ratingFeedback := "" }
    let eff := { emptyEffects with
      feedbackConsumed := some userInput
      msgs := MsgTag.feedbackThanks ::
        (if cards.isEmpty then [] else [MsgTag.mentorCardsMsg cards])
      mentorCards := cards
      sessionCompleted := !cards.isEmpty && decide (st.sessionId ≠ "") }
    (st', eff)
  else
    (st, { emptyEffects with msgs := [MsgTag.ratingError] })

example : parseIntJS "3 stars, it was bad" = some 3 := by rfl
example : parseIntJS "7" = some 7 := by rfl
example : parseIntJS "bad" = none := by rfl
example : parseIntJS " -2" = some (-2) := by rfl

/-- One questionnaire entry (`QUESTIONS` array of `ChatInterface.tsx`). -/
structure Question where
  id : Nat
  field : String
  prompt : String
  deriving DecidableEq, Repr

/-- The fixed six-question sequence (`QUESTIONS`, ChatInterface.tsx 48–55). -/
def QUESTIONS : List Question := [
  { id := 1, field := "business_name",
    prompt := "What is the company name or preferred company name?" },
  { id := 2, field := "company_description",
    prompt := "Please provide a brief description of the company or company website" },
  { id := 3, field := "location",
    prompt := "Which location will the business operate in?" },
  { id := 4, field := "partners_info",
    prompt := "Who will be the partners or directors? (How many and their roles?)" },
  { id := 5, field := "color_preference",
    prompt := "What color tone would you prefer for branding? (Earthy, Bright, Professional, etc.)" },
  { id := 6, field := "style_preference",
    prompt := "What style would you prefer? (Conservative/Classic, Modern/Contemporary, Expressive/Bold)" }]

/-- `handleQuestionResponse` (ChatInterface.tsx 203–247): write the answer
into the profile — the `partners_info` field wrapped as `[{ info: input }]`,
every other field as the bare string — save the updated profile, then
either advance to the next question (index `< QUESTIONS.length - 1`) or
transition to the `generating` stage with the processing message.  The
`generateAllDocuments` continuation it then invokes is modelled separately
by `generateAllDocuments` below. -/
def handleQuestionResponse (st : ChatState) (userInput : String) :
    ChatState × Effects :=
  let q := QUESTIONS.getD st.currentQuestionIndex
    { id := 0, field := "", prompt := "" }
  let v := if q.field = "partners_info" then JVal.jpartners [userInput]
           else JVal.jstr userInput
  let updated := objSet st.businessProfile q.field v
  if st.currentQuestionIndex < QUESTIONS.length - 1 then
    ({ st with businessProfile := updated
               currentQuestionIndex := st.currentQuestionIndex + 1 },
     { emptyEffects with profileSaved := some updated
                         msgs := [MsgTag.questionPrompt (st.currentQuestionIndex + 1)] })
  else
    ({ st with businessProfile := updated, flowStage := FlowStage.generating },
     { emptyEffects with profileSaved := some updated
                         msgs := [MsgTag.processing] })

/-- The state the `"2"` branch of `handleInitialChoice`
(ChatInterface.tsx 173–191) establishes: a fresh session id, an empty
in-memory profile, question index 0 and the `questioning` stage. -/
def initQuestioningState (sessionId : String) : ChatState :=
  { flowStage := FlowStage.questioning, currentQuestionIndex := 0,
    businessProfile := [], awaitingRating := false, ratingFeedback := "",
    sessionId := sessionId }

/-- Feed a sequence of answers through `handleQuestionResponse`. -/
def stepAnswers (st : ChatState) (inputs : List String) : ChatState :=
  inputs.foldl (fun s i => (handleQuestionResponse s i).1) st

/-- The filter of `updateBusinessProfile` (ChatInterface.tsx 265–269):
an incoming field overwrites only when its value is not `undefined`,
not `null` and not the empty string. -/
def mergeAccepts (v : JVal) : Bool :=
  !(v = JVal.jundef) && !(v = JVal.jnull) && !(v = JVal.jstr "")

/-- The merge of `updateBusinessProfile` (ChatInterface.tsx 260–275):
start from a copy of the existing record and assign each incoming field,
in key order, when `mergeAccepts` holds. -/
def mergeBusinessProfile (existing incoming : Profile) : Profile :=
  incoming.foldl
    (fun acc kv => if mergeAccepts kv.2 then objSet acc kv.1 kv.2 else acc)
    existing

/-- `updateBusinessProfile` (ChatInterface.tsx 249–289) acting on the
stored record for the session: merge into an existing record, insert the
incoming fields as a new record otherwise (the `user_id`/`session_id`
columns of the insert are keys outside the question fields and are not
modelled). -/
def updateStoredProfile (store : Option Profile) (incoming : Profile) :
    Option Profile :=
  match store with
  | some existing => some (mergeBusinessProfile existing incoming)
  | none => some incoming

/-- Document statuses (`Document.status` in ChatInterface.tsx). -/
inductive DocStatus
  | generating
  | completed
  | failed
  deriving DecidableEq, Repr

/-- The four document types. -/
inductive DocType
  | registration
  | branding
  | compliance
  | hr
  deriving DecidableEq, Repr

/-- The lowercase name of a document type, as in the `documentTypes`
string array of `generateAllDocuments`. -/
def DocType.name : DocType → String
  | .registration => "registration"
  | .branding => "branding"
  | .compliance => "compliance"
  | .hr => "hr"

/-- The fan-out order of `generateAllDocuments` (ChatInterface.tsx 314). -/
def documentTypes : List DocType :=
  [DocType.registration, DocType.branding, DocType.compliance, DocType.hr]

/-- A document record as held in the `documents` component state
(the time-stamped `id` string is not modelled; no claim involves it). -/
structure Document where
  type : DocType
  title : String
  keyPoints : List String
  fullContent : String
  pdfUrl : Option String
  status : DocStatus
  deriving DecidableEq, Repr

/-- The parsed JSON body a document-generation edge function returns on
HTTP success (`result` in `generateDocument`); absent or `null` fields
are `none`. -/
structure GenResult where
  error : Option String
  userMessage : Option String
  fullContent : Option String
  response : Option String
  keyPoints : Option (List String)
  pdfUrl : Option String
  deriving DecidableEq, Repr

/-- Outcome of one `fetch` to an edge function: a thrown
transport/processing fault, a non-success HTTP response, or a success
response with a parsed body. -/
inductive FetchOutcome
  | thrown
  | httpError
  | ok (result : GenResult)
  deriving DecidableEq, Repr

/-- JS truthiness of an optional string field (`undefined`, `null` and
`''` are falsy). -/
def jsTruthy (o : Option String) : Bool :=
  match o with
  | some s => !(s = "")
  | none => false

/-- `a || b || ''` on two optional string fields, as in
`result.fullContent || result.response || ''`. -/
def firstTruthy (a b : Option String) : String :=
  if jsTruthy a then a.getD "" else if jsTruthy b then b.getD "" else ""

/-- The `setDocuments(prev => prev.map(...))` failure update used by every
error path of `generateDocument`. -/
def setStatusFailed (docs : List Document) (t : DocType) : List Document :=
  docs.map (fun d => if d.type = t then { d with status := DocStatus.failed } else d)

/-- `generateDocument` (ChatInterface.tsx 351–422) as a transformation of
the `documents` state, parameterised by the fetch outcome for its type:
a thrown fault or a non-ok response marks the type failed; on an ok
response, a truthy `error` or `userMessage` field marks it failed;
otherwise the content `result.fullContent || result.response || ''` is
validated (`!fullContent || fullContent.length < 100` fails); a valid
content completes the document with `result.keyPoints || []`, the content
and `result.pdfUrl`.  The `try`/`catch` wraps the whole body, so the
function is total: it never raises past this boundary. -/
def generateDocument (t : DocType) (outcome : FetchOutcome)
    (docs : List Document) : List Document :=
  match outcome with
  | .thrown => setStatusFailed docs t
  | .httpError => setStatusFailed docs t
  | .ok result =>
    if jsTruthy result.error || jsTruthy result.userMessage then
      setStatusFailed docs t
    else
      let fullContent := firstTruthy result.fullContent result.response
      if fullContent = "" ∨ fullContent.length < 100 then
        setStatusFailed docs t
      else
        docs.map (fun d => if d.type = t then
          { d with status := DocStatus.completed
                   keyPoints := result.keyPoints.getD []
                   fullContent := fullContent
                   pdfUrl := result.pdfUrl } else d)

/-- The initial placeholder document `generateAllDocuments` creates for a
type: `` `${capitalized} Guide` ``, empty key points and content, status
`generating`. -/
def initialDoc (t : DocType) : Document :=
  { type := t, title := capitalizeJS t.name ++ " Guide", keyPoints := [],
    fullContent := "", pdfUrl := none, status := DocStatus.generating }

/-- `generateAllDocuments` (ChatInterface.tsx 313–333): create the four
`generating` placeholders, set the stage to `documents`, and resolve the
four concurrent `generateDocument` calls.  Each call only rewrites the
entries of its own type, so the concurrent updates commute and their
join is modelled as a fold in fan-out order; the later `setTimeout` that
moves the stage on to `rating` is a separate pacing step not modelled
here. -/
def generateAllDocuments (outcomes : DocType → FetchOutcome) :
    FlowStage × List Document :=
  (FlowStage.documents,
   documentTypes.foldl (fun docs t => generateDocument t (outcomes t) docs)
     (documentTypes.map initialDoc))

/-- The terminal document built from the fetch outcome of one type. -/
def docTransform (o : FetchOutcome) (d : Document) : Document :=
  match o with
  | .thrown => { d with status := DocStatus.failed }
  | .httpError => { d with status := DocStatus.failed }
  | .ok result =>
    if jsTruthy result.error || jsTruthy result.userMessage then
      { d with status := DocStatus.failed }
    else
      let fullContent := firstTruthy result.fullContent result.response
      if fullContent = "" ∨ fullContent.length < 100 then
        { d with status := DocStatus.failed }
      else
        { d with status := DocStatus.completed
                 keyPoints := result.keyPoints.getD []
                 fullContent := fullContent
                 pdfUrl := result.pdfUrl }

/-- Whether an outcome passes every check of `generateDocument` and leads
to `completed`. -/
def outcomeCompletes (o : FetchOutcome) : Bool :=
  match o with
  | .ok result =>
    !(jsTruthy result.error || jsTruthy result.userMessage) &&
    (let fullContent := firstTruthy result.fullContent result.response
     !(fullContent = "") && !(fullContent.length < 100))
  | _ => false

/-- The document entry of a given type in a document list. -/
def docFor (docs : List Document) (t : DocType) : Document :=
  (docs.find? (fun d => d.type = t)).getD (initialDoc t)

/-- A stored JSON value in the `key_points` column of
`generated_documents`: either a JSON array of strings or a JSON string. -/
inductive DbVal
  | dbStr (s : String)
  | dbArr (xs : List String)
  deriving DecidableEq, Repr

/-- Minimal `JSON.stringify` escaping of a string body (backslash and
double quote; the key-point strings of the claims use no control
characters). -/
def jsonEscape (s : String) : String :=
  String.join (s.data.map (fun c =>
    if c = '"' then "\\\"" else if c = '\\' then "\\\\" else String.singleton c))

/-- `JSON.stringify(keyPoints)` for a string array. -/
def jsonStringifyList (xs : List String) : String :=
  "[" ++ String.intercalate "," (xs.map (fun s => "\"" ++ jsonEscape s ++ "\"")) ++ "]"

/-- The value the hr-guide-guru edge function writes into the
`key_points` column (pdfGenerator.ts request handler, insert/update
branches): `key_points: JSON.stringify(keyPoints)` — a JSON STRING
holding the encoded array, not the array itself. -/
def writeKeyPoints (keyPoints : List String) : DbVal :=
  DbVal.dbStr (jsonStringifyList keyPoints)

/-- Modelled from the spec: `getDocumentsBySession`
(`src/lib/documentService`, not under `src/`) reads generated-document
records back from the persistence boundary, which per spec §6 stores and
returns each record as written; the stored `key_points` value is returned
unchanged. -/
def fetchKeyPoints (stored : DbVal) : DbVal := stored

/-- The key-points projection of `loadDocumentsFromDatabase`
(ChatInterface.tsx 301): `Array.isArray(doc.key_points) ?
doc.key_points : []`. -/
def loadKeyPoints (v : DbVal) : List String :=
  match v with
  | .dbArr xs => xs
  | .dbStr _ => []

/-- Write-then-load round trip of a document's key points. -/
def keyPointsRoundTrip (keyPoints : List String) : List String :=
  loadKeyPoints (fetchKeyPoints (writeKeyPoints keyPoints))

/-- A concrete rating-stage state with no feedback pending, as reached
right after `generateAllDocuments` finishes. -/
def ratingStateNoFb : ChatState :=
  { flowStage := FlowStage.rating, currentQuestionIndex := 5,
    businessProfile := [], awaitingRating := true, ratingFeedback := "",
    sessionId := "session-1" }

/-- The same rating-stage state with the feedback-pending sub-state
active (`ratingFeedback = 'awaiting'`). -/
def ratingStateFb : ChatState :=
  { ratingStateNoFb with awaitingRating := false, ratingFeedback := "awaiting" }

/-- A concrete mentor record, used as the result of the branding lookup. -/
def brandingMentor : MentorRec :=
  { name := "Jane Doe", email := "jane@example.com", phone := some "123",
    specialization := ["branding", "design"] }

/-- A 120-character generated content, above the 100-character threshold. -/
def goodContent : String := String.mk (List.replicate 120 'x')

/-- A well-formed edge-function response body. -/
def goodResult : GenResult :=
  { error := none, userMessage := none, fullContent := some goodContent,
    response := none, keyPoints := some ["k1", "k2"],
    pdfUrl := some "https://cdn.example/doc.pdf" }

/-- A malformed response body: HTTP success but empty content. -/
def emptyContentResult : GenResult :=
  { error := none, userMessage := none, fullContent := some "",
    response := none, keyPoints := none, pdfUrl := none }

/-- A concrete fan-out where exactly the hr response is malformed
(empty content) and the other three are well-formed. -/
def oneMalformedOutcomes : DocType → FetchOutcome
  | DocType.hr => FetchOutcome.ok emptyContentResult
  | _ => FetchOutcome.ok goodResult

/-- C3: in the rating stage with the feedback-pending sub-state active,
any input that does not parse as a valid integer rating 1–5 (including an
out-of-range numeric entry such as "7") is consumed as free-text feedback
and clears the sub-state; it is not re-validated as a rating (no rating
is submitted and no validation-error message is emitted), because the
sub-state check runs only after the numeric-rating branch fails. -/
theorem feedback_pending_consumes_invalid_input (st : ChatState)
    (mentors : List (Option MentorRec)) (input : String)
    (hfb : st.ratingFeedback = "awaiting")
    (hr : ratingInRange (parseIntJS input) = false) :
    (handleRatingResponse st mentors input).1.ratingFeedback = "" ∧
    (handleRatingResponse st mentors input).2.feedbackConsumed = some input ∧
    (handleRatingResponse st mentors input).2.submittedRating = none ∧
    MsgTag.ratingError ∉ (handleRatingResponse st mentors input).2.msgs := by
  by_cases hc : mkMentorCards mentors = [] <;>
    simp [handleRatingResponse, hr, hfb, emptyEffects, hc]

/-- Closed witness for `feedback_pending_consumes_invalid_input` at the
out-of-range input "7". -/
theorem feedback_pending_consumes_invalid_input_witness :
    (handleRatingResponse ratingStateFb [] "7").1.ratingFeedback = "" ∧
    (handleRatingResponse ratingStateFb [] "7").2.feedbackConsumed = some "7" ∧
    (handleRatingResponse ratingStateFb [] "7").2.submittedRating = none ∧
    MsgTag.ratingError ∉ (handleRatingResponse ratingStateFb [] "7").2.msgs :=
  feedback_pending_consumes_invalid_input ratingStateFb [] "7" (by rfl) (by rfl)

/-- C9: in the rating stage with no feedback pending, an input that does
not parse to an integer 1–5 leaves the state unchanged (so the stage
stays `rating` and the feedback sub-state is not entered), submits no
rating, and only emits the validation-error message. -/
theorem invalid_rating_reprompts (st : ChatState)
    (mentors : List (Option MentorRec)) (input : String)
    (hfb : st.ratingFeedback ≠ "awaiting")
    (hr : ratingInRange (parseIntJS input) = false) :
    (handleRatingResponse st mentors input).1 = st ∧
    (handleRatingResponse st mentors input).2.msgs = [MsgTag.ratingError] ∧
    (handleRatingResponse st mentors input).2.submittedRating = none ∧
    (handleRatingResponse st mentors input).2.feedbackConsumed = none ∧
    (handleRatingResponse st mentors input).2.sessionCompleted = false := by
  simp [handleRatingResponse, hr, hfb, emptyEffects]

/-- Closed witness for `invalid_rating_reprompts` at the input "7". -/
theorem invalid_rating_reprompts_witness :
    (handleRatingResponse ratingStateNoFb [] "7").1 = ratingStateNoFb ∧
    (handleRatingResponse ratingStateNoFb [] "7").2.msgs = [MsgTag.ratingError] ∧
    (handleRatingResponse ratingStateNoFb [] "7").2.submittedRating = none ∧
    (handleRatingResponse ratingStateNoFb [] "7").2.feedbackConsumed = none ∧
    (handleRatingResponse ratingStateNoFb [] "7").2.sessionCompleted = false :=
  invalid_rating_reprompts ratingStateNoFb [] "7" (by decide) (by rfl)

/-- C10: rating parsing is lenient.  In every rating-stage state —
including those with the feedback-pending sub-state active — an input
whose trimmed text begins with digits parsing (via `parseInt`) to an
integer 1–5 is accepted and submitted as a numeric rating and is not
treated as feedback; and an input that does not parse into 1–5 never
reaches the rating-submission branch. -/
theorem lenient_rating_parse (st : ChatState)
    (mentors : List (Option MentorRec)) (input : String) :
    (∀ r : Int, parseIntJS input = some r → 1 ≤ r → r ≤ 5 →
      (handleRatingResponse st mentors input).2.submittedRating = some r ∧
      (handleRatingResponse st mentors input).2.feedbackConsumed = none) ∧
    (ratingInRange (parseIntJS input) = false →
      (handleRatingResponse st mentors input).2.submittedRating = none) := by
  constructor
  · intro r hp h1 h5
    have hin : ratingInRange (some r) = true := by
      simp [ratingInRange, h1, h5]
    simp [handleRatingResponse, hp, hin, emptyEffects]
  · intro hr
    by_cases hfb : st.ratingFeedback = "awaiting" <;>
      simp [handleRatingResponse, hr, hfb, emptyEffects]

/-- Closed witness for `lenient_rating_parse`: with feedback pending, the
input "3 stars, it was bad" is still accepted as the rating 3. -/
theorem lenient_rating_parse_witness :
    (handleRatingResponse ratingStateFb [] "3 stars, it was bad").2.submittedRating
      = some 3 ∧
    (handleRatingResponse ratingStateFb [] "3 stars, it was bad").2.feedbackConsumed
      = none :=
  (lenient_rating_parse ratingStateFb [] "3 stars, it was bad").1 3
    (by rfl) (by decide) (by decide)

/-- C1 counterexample: the accepted rating is NOT immutable.  In a
concrete rating-stage session the input "2" is accepted and submitted as
a rating; the conversation stays in the `rating` stage, so the subsequent
input "5" is again parsed, accepted and submitted as a rating. -/
theorem rating_not_immutable :
    (handleRatingResponse ratingStateNoFb [] "2").2.submittedRating = some 2 ∧
    (handleRatingResponse (handleRatingResponse ratingStateNoFb [] "2").1 []
        "5").2.submittedRating = some 5 := by
  constructor <;> rfl

/-- C1 (amended): accepting a valid integer rating 1–5 submits it and
triggers exactly one of the two terminal branches — the low-rating
feedback path when the rating ≤ 3 (feedback request emitted, sub-state
entered, session not completed), or the high-rating closure path when
the rating ≥ 4 (closing message emitted, session completed exactly when a
session id is set).  The rating is however not immutable: the flow stage
is left unchanged (it stays `rating`), so this theorem applies again to
any later input that parses to 1–5 — including inputs arriving after an
earlier accepted rating — and such input is submitted as a rating anew. -/
theorem rating_accept_exclusive_branches (st : ChatState)
    (mentors : List (Option MentorRec)) (input : String) (r : Int)
    (hp : parseIntJS input = some r) (h1 : 1 ≤ r) (h5 : r ≤ 5) :
    (handleRatingResponse st mentors input).2.submittedRating = some r ∧
    (handleRatingResponse st mentors input).1.flowStage = st.flowStage ∧
    ((r ≤ 3 ∧
        (handleRatingResponse st mentors input).1.ratingFeedback = "awaiting" ∧
        (handleRatingResponse st mentors input).2.msgs
          = [MsgTag.ratingThanks r, MsgTag.feedbackRequest] ∧
        (handleRatingResponse st mentors input).2.sessionCompleted = false) ∨
     (4 ≤ r ∧
        (handleRatingResponse st mentors input).2.msgs
          = [MsgTag.ratingThanks r, MsgTag.closing] ∧
        ((handleRatingResponse st mentors input).2.sessionCompleted = true ↔
          st.sessionId ≠ ""))) ∧
    ¬(r ≤ 3 ∧ 4 ≤ r) := by
  have hin : ratingInRange (some r) = true := by
    simp [ratingInRange, h1, h5]
  by_cases h3 : r ≤ 3
  · refine ⟨?_, ?_, Or.inl ⟨h3, ?_, ?_, ?_⟩, ?_⟩ <;>
      simp [handleRatingResponse, hp, hin, emptyEffects, h3] <;> omega
  · refine ⟨?_, ?_, Or.inr ⟨by omega, ?_, ?_⟩, ?_⟩ <;>
      simp [handleRatingResponse, hp, hin, emptyEffects, h3] <;> omega

/-- Closed witness for `rating_accept_exclusive_branches` at the rating
input "5" in a concrete rating-stage session. -/
theorem rating_accept_exclusive_branches_witness :
    (handleRatingResponse ratingStateNoFb [] "5").2.submittedRating = some 5 ∧
    (handleRatingResponse ratingStateNoFb [] "5").1.flowStage
      = ratingStateNoFb.flowStage ∧
    (((5 : Int) ≤ 3 ∧
        (handleRatingResponse ratingStateNoFb [] "5").1.ratingFeedback = "awaiting" ∧
        (handleRatingResponse ratingStateNoFb [] "5").2.msgs
          = [MsgTag.ratingThanks 5, MsgTag.feedbackRequest] ∧
        (handleRatingResponse ratingStateNoFb [] "5").2.sessionCompleted = false) ∨
     (4 ≤ (5 : Int) ∧
        (handleRatingResponse ratingStateNoFb [] "5").2.msgs
          = [MsgTag.ratingThanks 5, MsgTag.closing] ∧
        ((handleRatingResponse ratingStateNoFb [] "5").2.sessionCompleted = true ↔
          ratingStateNoFb.sessionId ≠ ""))) ∧
    ¬((5 : Int) ≤ 3 ∧ 4 ≤ (5 : Int)) :=
  rating_accept_exclusive_branches ratingStateNoFb [] "5" 5
    (by rfl) (by decide) (by decide)

/-- C8 counterexample: consuming a free-text feedback input does not
always mark the session completed.  With all four mentor lookups
returning null, the input "bad" is consumed as feedback yet
`updateSessionStatus(.., 'completed')` is never invoked, because that
call sits inside `if (mentorCards.length > 0)`. -/
theorem feedback_without_mentors_not_completed :
    (handleRatingResponse ratingStateFb [none, none, none, none]
        "bad").2.feedbackConsumed = some "bad" ∧
    (handleRatingResponse ratingStateFb [none, none, none, none]
        "bad").2.sessionCompleted = false := by
  constructor <;> rfl

/-- C8 (amended): in the rating stage with the feedback-pending sub-state
active, a free-text input is consumed as feedback, and the session is
marked completed provided at least one of the four mentor lookups
returns a mentor and a session id is set; when every lookup returns null
the completion update is skipped. -/
theorem feedback_completion_needs_mentors (st : ChatState)
    (mentors : List (Option MentorRec)) (input : String)
    (hfb : st.ratingFeedback = "awaiting")
    (hr : ratingInRange (parseIntJS input) = false)
    (hc : mkMentorCards mentors ≠ [])
    (hs : st.sessionId ≠ "") :
    (handleRatingResponse st mentors input).2.feedbackConsumed = some input ∧
    (handleRatingResponse st mentors input).2.sessionCompleted = true := by
  simp [handleRatingResponse, hr, hfb, emptyEffects, hc, hs]

/-- Closed witness for `feedback_completion_needs_mentors`: one non-null
mentor lookup suffices for the feedback input "bad" to complete the
session. -/
theorem feedback_completion_needs_mentors_witness :
    (handleRatingResponse ratingStateFb [some brandingMentor, none, none, none]
        "bad").2.feedbackConsumed = some "bad" ∧
    (handleRatingResponse ratingStateFb [some brandingMentor, none, none, none]
        "bad").2.sessionCompleted = true :=
  feedback_completion_needs_mentors ratingStateFb
    [some brandingMentor, none, none, none] "bad" (by rfl) (by rfl)
    (by decide) (by decide)

/-- C7: the mentor fan-out misattributes services when some lookups
return null.  With the four lookups (registration, branding, compliance,
hr) returning null, a branding mentor, null, null, the single presented
card pairs the branding mentor with the service label "Registration":
the code filters nulls first and then indexes `serviceTypes` by the
position in the FILTERED list, so the card does not name the service
whose lookup returned that mentor. -/
theorem mentor_cards_misattribute_service :
    mkMentorCards [none, some brandingMentor, none, none] =
      [{ name := "Jane Doe", email := "jane@example.com", phone := "123",
         expertise := "branding, design", service := "Registration" }] ∧
    ("Registration" : String) ≠ "Branding" := by
  constructor
  · rfl
  · decide

/-- C6: the key-points round trip fails.  The edge function stores
`JSON.stringify(keyPoints)` — a JSON string, not an array — so the
loader's `Array.isArray` check always fails on a re-loaded record and
yields `[]` for every written list, in particular not the non-empty list
that was written. -/
theorem keyPoints_roundTrip_loses_list :
    (∀ keyPoints : List String, keyPointsRoundTrip keyPoints = []) ∧
    keyPointsRoundTrip ["Structured onboarding process"]
      ≠ ["Structured onboarding process"] := by
  constructor
  · intro keyPoints; rfl
  · decide

/-- C4: answering all six questions from a fresh questioning state yields
a business profile holding exactly the six fields in question order, the
`partners_info` answer wrapped as the one-element structured list
`[{ info: answer }]` and every other answer stored as the bare string;
the sixth answer moves the flow stage to `generating`. -/
theorem questioning_builds_six_field_profile
    (sid a1 a2 a3 a4 a5 a6 : String) :
    (stepAnswers (initQuestioningState sid)
        [a1, a2, a3, a4, a5, a6]).businessProfile =
      [("business_name", JVal.jstr a1),
       ("company_description", JVal.jstr a2),
       ("location", JVal.jstr a3),
       ("partners_info", JVal.jpartners [a4]),
       ("color_preference", JVal.jstr a5),
       ("style_preference", JVal.jstr a6)] ∧
    (stepAnswers (initQuestioningState sid)
        [a1, a2, a3, a4, a5, a6]).flowStage = FlowStage.generating :=
  ⟨rfl, rfl⟩

/-- `mergeBusinessProfile` unfolded one incoming field at a time. -/
theorem mergeBusinessProfile_cons (existing : Profile) (kv : String × JVal)
    (rest : Profile) :
    mergeBusinessProfile existing (kv :: rest) =
      mergeBusinessProfile
        (if mergeAccepts kv.2 then objSet existing kv.1 kv.2 else existing)
        rest := rfl

/-- Assigning one key leaves every other key unchanged. -/
theorem objGet_objSet_ne (p : Profile) (k' k : String) (v : JVal)
    (h : k' ≠ k) : objGet (objSet p k' v) k = objGet p k := by
  unfold objSet
  split
  · unfold objGet
    rw [List.find?_map]
    have hpf : ((fun kv : String × JVal => decide (kv.1 = k)) ∘
          fun kv => if kv.1 = k' then (k', v) else kv)
        = (fun kv : String × JVal => decide (kv.1 = k)) := by
      funext kv
      by_cases hkv : kv.1 = k'
      · simp [hkv, h]
      · simp [hkv]
    rw [hpf]
    cases hf : List.find? (fun kv => decide (kv.1 = k)) p with
    | none => rfl
    | some a =>
      have ha : a.1 = k := by simpa using List.find?_some hf
      have hfa : (if a.1 = k' then (k', v) else a) = a := by
        rw [if_neg]
        rw [ha]
        exact fun hh => h hh.symm
      simp [hfa]
  · unfold objGet
    rw [List.find?_append]
    have hnil : List.find? (fun kv : String × JVal => decide (kv.1 = k))
        [(k', v)] = none := by
      simp [List.find?, h]
    rw [hnil]
    cases List.find? (fun kv : String × JVal => decide (kv.1 = k)) p <;> rfl

/-- Keys that the incoming update does not mention keep their value. -/
theorem objGet_merge_unmentioned (incoming : Profile) (existing : Profile)
    (k : String) (h : ∀ kv ∈ incoming, kv.1 ≠ k) :
    objGet (mergeBusinessProfile existing incoming) k = objGet existing k := by
  induction incoming generalizing existing with
  | nil => rfl
  | cons kv rest ih =>
    rw [mergeBusinessProfile_cons]
    have hk : kv.1 ≠ k := h kv (by simp)
    have hrest : ∀ kv' ∈ rest, kv'.1 ≠ k := fun kv' hm => h kv' (by simp [hm])
    rw [ih _ hrest]
    split
    · exact objGet_objSet_ne existing kv.1 k kv.2 hk
    · rfl

/-- C5: the non-destructive merge of `updateBusinessProfile` never drops
a previously set field.  Updating the stored profile with `{a: x}` and
then `{b: y}` (distinct keys, non-empty values) yields a stored record
containing both fields; and in general a key not mentioned by an
incoming update keeps its stored value, because only incoming fields
that are not `undefined`, `null` or the empty string overwrite. -/
theorem merge_never_drops_fields (a b x y : String) (hab : a ≠ b)
    (_hx : x ≠ "") (hy : y ≠ "") :
    updateStoredProfile (updateStoredProfile none [(a, JVal.jstr x)])
        [(b, JVal.jstr y)] =
      some [(a, JVal.jstr x), (b, JVal.jstr y)] ∧
    (∀ existing incoming : Profile, ∀ k : String,
      (∀ kv ∈ incoming, kv.1 ≠ k) →
      objGet (mergeBusinessProfile existing incoming) k = objGet existing k) := by
  constructor
  · simp [updateStoredProfile, mergeBusinessProfile, mergeAccepts, objSet,
      hab, hy]
  · intro existing incoming k h
    exact objGet_merge_unmentioned incoming existing k h

/-- Closed witness for `merge_never_drops_fields` at the spec's example
`{a: "x"}` then `{b: "y"}`. -/
theorem merge_never_drops_fields_witness :
    updateStoredProfile (updateStoredProfile none [("a", JVal.jstr "x")])
        [("b", JVal.jstr "y")] =
      some [("a", JVal.jstr "x"), ("b", JVal.jstr "y")] :=
  (merge_never_drops_fields "a" "b" "x" "y" (by decide) (by decide)
    (by decide)).1

/-- `docTransform` never changes the document type. -/
theorem docTransform_type (o : FetchOutcome) (d : Document) :
    (docTransform o d).type = d.type := by
  cases o with
  | thrown => rfl
  | httpError => rfl
  | ok r =>
    by_cases h1 : (jsTruthy r.error || jsTruthy r.userMessage) = true
    · simp [docTransform, h1]
    · by_cases h2 : (firstTruthy r.fullContent r.response = "" ∨
          (firstTruthy r.fullContent r.response).length < 100)
      · simp [docTransform, h1, h2]
      · simp [docTransform, h1, h2]

/-- `generateDocument` rewrites exactly the entries of its own type with
`docTransform`. -/
theorem generateDocument_eq_map (t : DocType) (o : FetchOutcome)
    (docs : List Document) :
    generateDocument t o docs =
      docs.map (fun d => if d.type = t then docTransform o d else d) := by
  cases o with
  | thrown => rfl
  | httpError => rfl
  | ok r =>
    by_cases h1 : (jsTruthy r.error || jsTruthy r.userMessage) = true
    · simp [generateDocument, docTransform, setStatusFailed, h1]
    · by_cases h2 : (firstTruthy r.fullContent r.response = "" ∨
          (firstTruthy r.fullContent r.response).length < 100)
      · simp [generateDocument, docTransform, setStatusFailed, h1, h2]
      · simp [generateDocument, docTransform, h1, h2]

/-- The fan-out/fan-in of `generateAllDocuments` resolves to the four
per-type terminal documents, in fan-out order. -/
theorem generateAllDocuments_eq (outcomes : DocType → FetchOutcome) :
    generateAllDocuments outcomes =
      (FlowStage.documents,
       [docTransform (outcomes DocType.registration) (initialDoc DocType.registration),
        docTransform (outcomes DocType.branding) (initialDoc DocType.branding),
        docTransform (outcomes DocType.compliance) (initialDoc DocType.compliance),
        docTransform (outcomes DocType.hr) (initialDoc DocType.hr)]) := by
  simp [generateAllDocuments, documentTypes, generateDocument_eq_map,
    docTransform_type, initialDoc]

/-- Looking up a type in the resolved document list yields that type's
terminal document. -/
theorem docFor_generateAllDocuments (outcomes : DocType → FetchOutcome)
    (t : DocType) :
    docFor (generateAllDocuments outcomes).2 t =
      docTransform (outcomes t) (initialDoc t) := by
  cases t <;>
    simp [generateAllDocuments_eq, docFor, List.find?, docTransform_type,
      initialDoc]

/-- The terminal status is `completed` exactly when every validation
check passes, and `failed` otherwise. -/
theorem docTransform_status (o : FetchOutcome) (d : Document) :
    (docTransform o d).status =
      (if outcomeCompletes o then DocStatus.completed else DocStatus.failed) := by
  cases o with
  | thrown => rfl
  | httpError => rfl
  | ok r =>
    by_cases h1 : (jsTruthy r.error || jsTruthy r.userMessage) = true
    · simp [docTransform, outcomeCompletes, h1]
    · by_cases h2 : (firstTruthy r.fullContent r.response = "" ∨
          (firstTruthy r.fullContent r.response).length < 100)
      · rcases h2 with h2 | h2 <;>
          simp [docTransform, outcomeCompletes, h1, h2]
      · push_neg at h2
        simp [docTransform, outcomeCompletes, h1, h2.1, h2.2,
          Nat.not_lt.mpr h2.2]

/-- A passing outcome completes the document with the returned key
points, content and pdf reference. -/
theorem docTransform_completes (r : GenResult) (d : Document)
    (h : outcomeCompletes (FetchOutcome.ok r) = true) :
    docTransform (FetchOutcome.ok r) d =
      { d with status := DocStatus.completed
               keyPoints := r.keyPoints.getD []
               fullContent := firstTruthy r.fullContent r.response
               pdfUrl := r.pdfUrl } := by
  simp only [outcomeCompletes, Bool.and_eq_true, Bool.not_eq_true',
    decide_eq_false_iff_not] at h
  simp [docTransform, h.1, h.2.1, h.2.2]

/-- C2: the per-type document-generation contract.  The stage is set to
`documents` by the fan-out regardless of outcomes; a success response
whose validated content has length ≥ 100 completes that type's document
with the returned key points, full content and pdf reference; any other
outcome (error payload, short or empty content, non-success HTTP
response, thrown fault) makes exactly that document `failed`;
`generateDocument` is total, so every outcome ends in one of the two
terminal statuses and never raises past this boundary; and when exactly
one of the four concurrent outcomes is malformed, the other three
documents still reach `completed` while the flawed one reaches `failed`. -/
theorem generateDocument_contract (outcomes : DocType → FetchOutcome)
    (t : DocType) :
    (generateAllDocuments outcomes).1 = FlowStage.documents ∧
    (∀ r : GenResult, outcomes t = FetchOutcome.ok r →
      outcomeCompletes (outcomes t) = true →
      docFor (generateAllDocuments outcomes).2 t =
        { initialDoc t with
            status := DocStatus.completed
            keyPoints := r.keyPoints.getD []
            fullContent := firstTruthy r.fullContent r.response
            pdfUrl := r.pdfUrl }) ∧
    (outcomeCompletes (outcomes t) = false →
      (docFor (generateAllDocuments outcomes).2 t).status = DocStatus.failed) ∧
    ((docFor (generateAllDocuments outcomes).2 t).status = DocStatus.completed ∨
     (docFor (generateAllDocuments outcomes).2 t).status = DocStatus.failed) ∧
    ((outcomeCompletes (outcomes t) = false ∧
        ∀ t2, t2 ≠ t → outcomeCompletes (outcomes t2) = true) →
      ((docFor (generateAllDocuments outcomes).2 t).status = DocStatus.failed ∧
       ∀ t2, t2 ≠ t →
         (docFor (generateAllDocuments outcomes).2 t2).status
           = DocStatus.completed)) := by
  refine ⟨?_, ?_, ?_, ?_, ?_⟩
  · rw [generateAllDocuments_eq]
  · intro r hr hok
    rw [docFor_generateAllDocuments, hr]
    exact docTransform_completes r (initialDoc t) (hr ▸ hok)
  · intro hfail
    rw [docFor_generateAllDocuments, docTransform_status]
    simp [hfail]
  · rw [docFor_generateAllDocuments, docTransform_status]
    by_cases h : outcomeCompletes (outcomes t) = true <;> simp [h]
  · rintro ⟨hfail, hothers⟩
    constructor
    · rw [docFor_generateAllDocuments, docTransform_status]
      simp [hfail]
    · intro t2 ht2
      rw [docFor_generateAllDocuments, docTransform_status]
      simp [hothers t2 ht2]

set_option maxRecDepth 4000 in
/-- Closed witness for `generateDocument_contract`: with exactly the hr
response malformed (empty content) and the other three well-formed, the
hr document fails, the other three complete, and the stage is
`documents`. -/
theorem generateDocument_contract_witness :
    (docFor (generateAllDocuments oneMalformedOutcomes).2 DocType.hr).status
      = DocStatus.failed ∧
    (docFor (generateAllDocuments oneMalformedOutcomes).2
        DocType.registration).status = DocStatus.completed ∧
    (docFor (generateAllDocuments oneMalformedOutcomes).2
        DocType.branding).status = DocStatus.completed ∧
    (docFor (generateAllDocuments oneMalformedOutcomes).2
        DocType.compliance).status = DocStatus.completed ∧
    (generateAllDocuments oneMalformedOutcomes).1 = FlowStage.documents := by
  have h := generateDocument_contract oneMalformedOutcomes DocType.hr
  have hothers : ∀ t2, t2 ≠ DocType.hr →
      outcomeCompletes (oneMalformedOutcomes t2) = true := by
    intro t2 ht2
    cases t2 <;> first | decide | exact absurd rfl ht2
  have hone := h.2.2.2.2 ⟨rfl, hothers⟩
  exact ⟨hone.1, hone.2 DocType.registration (by decide),
    hone.2 DocType.branding (by decide),
    hone.2 DocType.compliance (by decide), h.1⟩
